import Mathlib

/-!
Shallow embedding of `src/frontend/src/components/navigation/NavigationLinks.ts`
from the Edamorph repository, together with theorems about the navigation
registry it declares.

The file declares a type `MenuGroup` (a title, an optional icon, and a list
of links, each a label, an href and an optional icon) and a constant
`menuGroups : MenuGroup[]` holding three groups of five links each.  We embed
the TS record types as Lean structures (the optional `icon?` fields become
`Option String`) and the literal as a Lean constant.  The module-level
constant is the accessor: reading it is the operation `getMenuGroups`, which
we embed as a function from `Unit` so that distinct calls can be spoken about.
-/

namespace Edamorph.Navigation

/-- Embeds the anonymous link record type inside `MenuGroup` in
`NavigationLinks.ts`: `{ label: string; href: string; icon?: string }`. -/
structure MenuLink where
  label : String
  href : String
  icon : Option String := none
deriving DecidableEq

/-- Embeds the TS type `MenuGroup`:
`{ title: string; icon?: string; links: {...}[] }`. -/
structure MenuGroup where
  title : String
  icon : Option String := none
  links : List MenuLink
deriving DecidableEq

/-- Embeds the exported constant `menuGroups : MenuGroup[]` of
`NavigationLinks.ts`, field for field and in the authored order. -/
def menuGroups : List MenuGroup :=
  [ { title := "Correlations"
    , icon := some "🔗"
    , links :=
        [ { label := "Full Matrix", href := "/correlation/matrix" }
        , { label := "Pairwise Metrics", href := "/correlation/pairwise" }
        , { label := "Cramér\x27s V", href := "/correlation/cramers-v" }
        , { label := "Correlation Ratio (η²)", href := "/correlation/eta" }
        , { label := "Feature Heatmap", href := "/correlation/heatmap" }
        ] }
  , { title := "Transformations"
    , icon := some "🔧"
    , links :=
        [ { label := "Column Transformations", href := "/transformations/columns" }
        , { label := "Normalizations", href := "/transformations/normalize" }
        , { label := "Encodings", href := "/transformations/encodings" }
        , { label := "Feature Engineering", href := "/transformations/feature-eng" }
        , { label := "Generated SQL", href := "/transformations/sql-preview" }
        ] }
  , { title := "Distributions"
    , icon := some "📊"
    , links :=
        [ { label := "Histogram", href := "/distributions/histogram" }
        , { label := "Box Plot", href := "/distributions/boxplot" }
        , { label := "Quantiles", href := "/distributions/quantiles" }
        , { label := "Outliers", href := "/distributions/outliers" }
        , { label := "KDE", href := "/distributions/kde" }
        ] }
  ]

/-- The accessor `getMenuGroups`: in the TS source the constant itself is the
read-only accessor (a module-level `const` read).  Embedded as a function from
`Unit` so that separate calls are separate applications. -/
def getMenuGroups : Unit → List MenuGroup := fun _ => menuGroups

/-- All hrefs of the registry, across every group, in authored order. -/
def allHrefs : List String :=
  (menuGroups.map (fun g => g.links.map (fun l => l.href))).flatten

/-- `strStartsWith p s` holds when the string `s` begins with the prefix `p`
(stated on the character lists so the kernel can evaluate it). -/
def strStartsWith (p s : String) : Bool :=
  p.data.isPrefixOf s.data

/-- Process state of the component: just the registry it holds.  The TS module
has no other state. -/
structure NavState where
  registry : List MenuGroup
deriving DecidableEq

/-- The state at module initialization: the registry as authored. -/
def initState : NavState := { registry := menuGroups }

/-- A call of the accessor against the state: returns the registry and leaves
the state untouched (the TS source contains no mutating operation). -/
def callGetMenuGroups (s : NavState) : List MenuGroup × NavState :=
  (s.registry, s)

/-- The state after `n` successive accessor calls. -/
def runCalls : Nat → NavState → NavState
  | 0, s => s
  | n + 1, s => runCalls n (callGetMenuGroups s).2

end Edamorph.Navigation

namespace Edamorph.Navigation

/-- Claim C1: the accessor returns exactly 3 menu groups whose titles are,
in order, "Correlations", "Transformations", "Distributions". -/
theorem getMenuGroups_titles :
    (getMenuGroups ()).length = 3 ∧
    (getMenuGroups ()).map (fun g => g.title) =
      ["Correlations", "Transformations", "Distributions"] := by
  constructor <;> rfl

/-- Claim C2: the group titled "Correlations" contains exactly 5 links whose
(label, href) pairs are, in order, ("Full Matrix", "/correlation/matrix"),
("Pairwise Metrics", "/correlation/pairwise"), ("Cramér's V",
"/correlation/cramers-v"), ("Correlation Ratio (η²)", "/correlation/eta"),
("Feature Heatmap", "/correlation/heatmap"). -/
theorem correlations_links :
    ∃ g ∈ menuGroups, g.title = "Correlations" ∧
      g.links.length = 5 ∧
      g.links.map (fun l => (l.label, l.href)) =
        [ ("Full Matrix", "/correlation/matrix")
        , ("Pairwise Metrics", "/correlation/pairwise")
        , ("Cramér\x27s V", "/correlation/cramers-v")
        , ("Correlation Ratio (η²)", "/correlation/eta")
        , ("Feature Heatmap", "/correlation/heatmap") ] ∧
      (∀ g' ∈ menuGroups, g'.title = "Correlations" → g' = g) := by
  refine ⟨menuGroups[0], by decide, rfl, rfl, rfl, ?_⟩
  decide

/-- Claim C3: the group titled "Transformations" contains exactly 5 links,
every href begins with "/transformations/", and the labels and hrefs equal
the source literal. -/
theorem transformations_links :
    ∃ g ∈ menuGroups, g.title = "Transformations" ∧
      g.links.length = 5 ∧
      (g.links.all (fun l => strStartsWith "/transformations/" l.href)) = true ∧
      g.links.map (fun l => (l.label, l.href)) =
        [ ("Column Transformations", "/transformations/columns")
        , ("Normalizations", "/transformations/normalize")
        , ("Encodings", "/transformations/encodings")
        , ("Feature Engineering", "/transformations/feature-eng")
        , ("Generated SQL", "/transformations/sql-preview") ] := by
  exact ⟨menuGroups[1], by decide, rfl, rfl, by decide, rfl⟩

/-- Claim C4: the group titled "Distributions" contains exactly 5 links,
every href begins with "/distributions/", and the labels and hrefs equal
the source literal. -/
theorem distributions_links :
    ∃ g ∈ menuGroups, g.title = "Distributions" ∧
      g.links.length = 5 ∧
      (g.links.all (fun l => strStartsWith "/distributions/" l.href)) = true ∧
      g.links.map (fun l => (l.label, l.href)) =
        [ ("Histogram", "/distributions/histogram")
        , ("Box Plot", "/distributions/boxplot")
        , ("Quantiles", "/distributions/quantiles")
        , ("Outliers", "/distributions/outliers")
        , ("KDE", "/distributions/kde") ] := by
  exact ⟨menuGroups[2], by decide, rfl, rfl, by decide, rfl⟩

/-- Claim C5: the accessor is idempotent and deterministic — any two calls
return structurally identical results, each structurally equal to the
declared literal. -/
theorem getMenuGroups_idempotent (u v : Unit) :
    getMenuGroups u = getMenuGroups v ∧ getMenuGroups u = menuGroups :=
  ⟨rfl, rfl⟩

/-- Claim C6: the accessor can never fail — embedded as a total function it
returns a value (the declared registry) on every call; there is no error
branch. -/
theorem getMenuGroups_total (u : Unit) :
    ∃ gs : List MenuGroup, getMenuGroups u = gs ∧ gs = menuGroups :=
  ⟨menuGroups, rfl, rfl⟩

/-- Claim C7: the registry is immutable — after any number of accessor calls
(the component's only operation) the state still holds the registry exactly
as authored, groups and links in their original order, and every call
returned that same value. -/
theorem registry_immutable (n : Nat) :
    runCalls n initState = initState ∧
    (runCalls n initState).registry = menuGroups ∧
    (callGetMenuGroups (runCalls n initState)).1 = menuGroups := by
  induction n with
  | zero => exact ⟨rfl, rfl, rfl⟩
  | succ n ih =>
      have h : runCalls (n + 1) initState = initState := by
        simpa [runCalls, callGetMenuGroups] using ih.1
      exact ⟨h, by rw [h]; rfl, by rw [h]; rfl⟩

/-- Claim C8: group titles are pairwise distinct within the registry. -/
theorem titles_nodup : (menuGroups.map (fun g => g.title)).Nodup := by
  decide

/-- Claim C9: across all 15 links of all groups no two links share an href,
and every href begins with "/". -/
theorem hrefs_nodup_and_rooted :
    allHrefs.length = 15 ∧ allHrefs.Nodup ∧
    (allHrefs.all (fun h => strStartsWith "/" h)) = true := by
  refine ⟨rfl, by decide, by decide⟩

/-- Claim C10: every one of the 3 menu groups has its optional icon present
("🔗", "🔧", "📊" in order), while none of the 15 links has an icon set. -/
theorem icon_population :
    menuGroups.map (fun g => g.icon) = [some "🔗", some "🔧", some "📊"] ∧
    (menuGroups.all (fun g => g.links.all (fun l => l.icon = none))) = true := by
  exact ⟨rfl, by decide⟩

end Edamorph.Navigation
